import Mathlib

/-
  Verification of the gameplay simulation core of the ndp3 crossing game
  (src/js/app.js, final version; src/js/engine.js supplies the canvas size
  505x606 and the per-tick update order).

  Embedding conventions:
  * canvas coordinates and time deltas are rationals (all constants in the
    source are halves or integers, so rational arithmetic is exact);
  * game points are integers, row/column indices of the scoring layer are
    naturals, geometric row indices are integers (Math.floor on a rational);
  * JavaScript `Math.floor` is Int.floor; a JS function falling off the end
    returns `undefined`, which is falsy in boolean position and is embedded
    as `false`;
  * randomness is made explicit: every call to Math.random() becomes a
    rational parameter r with 0 <= r < 1 supplied by the environment.
-/

namespace Ndp3

/-! ### Geometry / tile model (GameItem, MovableItem) -/

/-- GameItem.HORIZONTAL_TILE_WIDTH (app.js line 9). -/
def HORIZONTAL_TILE_WIDTH : ℚ := 101

/-- GameItem.VISIBLE_VERTICAL_TILE_HEIGHT (app.js line 10). -/
def VISIBLE_VERTICAL_TILE_HEIGHT : ℚ := 83

/-- The geometric state of a MovableItem: position, half of the visible
width, and the vertical buffer (`rowAdjust`).  Sprite and starting position
do not enter the collision test and are omitted here. -/
structure MovableItem where
  x : ℚ
  y : ℚ
  halfVisibleWidth : ℚ
  rowAdjust : ℚ

/-- MovableItem.prototype.midPoint. -/
def MovableItem.midPoint (m : MovableItem) : ℚ :=
  m.x + HORIZONTAL_TILE_WIDTH / 2

/-- MovableItem.prototype.visibleLeft. -/
def MovableItem.visibleLeft (m : MovableItem) : ℚ :=
  m.midPoint - m.halfVisibleWidth

/-- MovableItem.prototype.visibleRight. -/
def MovableItem.visibleRight (m : MovableItem) : ℚ :=
  m.midPoint + m.halfVisibleWidth

/-- MovableItem.prototype.onRow: floor((y - rowAdjust) / 83), with the
source's explicit zero guard. -/
def MovableItem.onRow (m : MovableItem) : ℤ :=
  let adjustedY := m.y - m.rowAdjust
  if adjustedY ≠ 0 then ⌊adjustedY / VISIBLE_VERTICAL_TILE_HEIGHT⌋ else 0

/-- MovableItem.prototype.onColumn: floor(x / 101) with the zero guard. -/
def MovableItem.onColumn (m : MovableItem) : ℤ :=
  if m.x ≠ 0 then ⌊m.x / HORIZONTAL_TILE_WIDTH⌋ else 0

/-- MovableItem.prototype.collidingWith (app.js lines 123-137).  The source
checks only the argument's (`item`'s) visible edges against the receiver's
visible interval; when the rows differ the JS function returns `undefined`
(falsy), embedded as `false`.  The try/catch around the body only guards
against arguments lacking the geometry methods, which cannot happen in this
typed embedding. -/
def MovableItem.collidingWith (a b : MovableItem) : Bool :=
  if a.onRow = b.onRow then
    decide ((b.visibleLeft < a.visibleRight ∧ b.visibleLeft > a.visibleLeft) ∨
            (b.visibleRight < a.visibleRight ∧ b.visibleRight > a.visibleLeft))
  else
    false

/-- The geometry of an Enemy standing at the leftmost position of the top
stone row: width 86 (half 43), vertical buffer 57, y = 0*83 + 57. -/
def enemyItem : MovableItem := ⟨0, 57, 43, 57⟩

/-- The geometry of the Player on the top stone row in the leftmost column:
width 31 (half 31/2), vertical buffer 48, y = 48. -/
def playerItem : MovableItem := ⟨0, 48, 31 / 2, 48⟩

/-- Modelled from the spec: the two-sided overlap test of spec section 4.1
("either entity's left edge strictly inside the other's interval, or
either's right edge strictly inside the other's interval"), for comparison
with the source's `collidingWith`. -/
def specCollides (a b : MovableItem) : Prop :=
  a.onRow = b.onRow ∧
    ((b.visibleLeft < a.visibleLeft ∧ a.visibleLeft < b.visibleRight) ∨
     (a.visibleLeft < b.visibleLeft ∧ b.visibleLeft < a.visibleRight) ∨
     (b.visibleLeft < a.visibleRight ∧ a.visibleRight < b.visibleRight) ∨
     (a.visibleLeft < b.visibleRight ∧ b.visibleRight < a.visibleRight))

/-! ### ShowPoints (transient score popups) -/

/-- A ShowPoints popup entry (app.js lines 713-721): tile anchor, signed
point delta, and the fade counter, initialized to 100 by the constructor. -/
structure ShowPoints where
  row : ℕ
  column : ℕ
  points : ℤ
  counter : ℚ

/-- The ShowPoints constructor: `this.counter = 100`. -/
def ShowPoints.new (row column : ℕ) (points : ℤ) : ShowPoints :=
  ⟨row, column, points, 100⟩

/-- ShowPoints.prototype.update (app.js lines 771-773):
`this.counter -= this.counter * dt`. -/
def ShowPoints.update (sp : ShowPoints) (dt : ℚ) : ShowPoints :=
  { sp with counter := sp.counter - sp.counter * dt }

/-- The popup of a 10-point pickup iterated through n ticks of
ShowPoints.update with the constant time delta dt = 1/2. -/
def fadeIterHalf (n : ℕ) : ShowPoints :=
  (fun sp => sp.update (1 / 2))^[n] (ShowPoints.new 0 0 10)

/-! ### GameProperties (scoring engine) -/

/-- The scoring-relevant state of the GameProperties object (app.js lines
781-811).  Pause flag, character selection, sounds and the info flag only
feed the rendering/input collaborators and are omitted. -/
structure GameProperties where
  currentGamePoints : ℤ
  bestGamePoints : ℤ
  consecutiveSuccesses : ℕ
  showPoints : List ShowPoints
  colouredTileModeOn : Bool
  collectiblesOn : Bool
  alternateDirectionsOn : Bool
  walkedSuccess : List (List ℕ)

/-- GameProperties.prototype._initializeWalkingArray (app.js lines 914-919):
pushes three empty row arrays. -/
def initialWalkingArray : List (List ℕ) := [[], [], []]

/-- The GameProperties constructor state (app.js lines 781-811). -/
def GameProperties.init : GameProperties :=
  { currentGamePoints := 0
    bestGamePoints := 0
    consecutiveSuccesses := 0
    showPoints := []
    colouredTileModeOn := false
    collectiblesOn := false
    alternateDirectionsOn := false
    walkedSuccess := initialWalkingArray }

/-- GameProperties.prototype.pointsTrackingModesOn (app.js lines 944-946). -/
def GameProperties.pointsTrackingModesOn (gp : GameProperties) : Bool :=
  gp.colouredTileModeOn || gp.collectiblesOn

/-- GameProperties.prototype.addPoints (app.js lines 956-959): add the delta
to the current points and push a fresh popup. -/
def GameProperties.addPoints (gp : GameProperties) (row column : ℕ) (points : ℤ) :
    GameProperties :=
  { gp with
    currentGamePoints := gp.currentGamePoints + points
    showPoints := gp.showPoints ++ [ShowPoints.new row column points] }

/-- GameProperties.prototype.reset (app.js lines 855-863).  The final
`player.resetPosition()` call only moves the player sprite back to its
starting tile; the player's position is not part of the scoring state. -/
def GameProperties.reset (gp : GameProperties) : GameProperties :=
  { gp with
    bestGamePoints :=
      if gp.currentGamePoints > gp.bestGamePoints then gp.currentGamePoints
      else gp.bestGamePoints
    consecutiveSuccesses := 0
    currentGamePoints := 0
    walkedSuccess := initialWalkingArray }

/-- GameProperties.prototype.playerCollidedWithEnemy (app.js lines 868-871);
the collision sound is an external effect. -/
def GameProperties.playerCollidedWithEnemy (gp : GameProperties) : GameProperties :=
  gp.reset

/-- GameProperties.prototype.playerCollectedItem (app.js lines 877-880);
the pickup sound is an external effect. -/
def GameProperties.playerCollectedItem (gp : GameProperties) (row column : ℕ)
    (points : ℤ) : GameProperties :=
  gp.addPoints row column points

/-- First half of GameProperties.prototype.playerWalkedOnStoneTile (app.js
lines 888-892): `walkedSuccess[row].indexOf(column) == -1` is the
non-membership test, `walkedSuccess[row].push(column)` appends to the row's
list, and `addPoints` leaves `walkedSuccess` untouched.  The source reads
`this.walkedSuccess[row]`, which is always in range because callers pass
row < 3; `getD row []` agrees with the source on all in-range rows. -/
def GameProperties.walkTileVisit (gp : GameProperties) (row column : ℕ) :
    GameProperties :=
  if (gp.walkedSuccess.getD row []).contains column then gp
  else
    { gp.addPoints row column 10 with
      walkedSuccess :=
        gp.walkedSuccess.set row ((gp.walkedSuccess.getD row []) ++ [column]) }

/-- Second half of playerWalkedOnStoneTile (app.js lines 894-900): when all
three rows hold 5 recorded tiles, award the 200-point bonus and clear the
walking record. -/
def GameProperties.walkedBonusCheck (gp : GameProperties) (row column : ℕ) :
    GameProperties :=
  if (gp.walkedSuccess.getD 0 []).length = 5 ∧
     (gp.walkedSuccess.getD 1 []).length = 5 ∧
     (gp.walkedSuccess.getD 2 []).length = 5 then
    { gp.addPoints row column 200 with walkedSuccess := initialWalkingArray }
  else gp

/-- GameProperties.prototype.playerWalkedOnStoneTile (app.js lines 886-906),
assembled from the two halves above; with coloured-tile mode off the source
only re-initializes the walking array. -/
def GameProperties.playerWalkedOnStoneTile (gp : GameProperties) (row column : ℕ) :
    GameProperties :=
  if gp.colouredTileModeOn then
    (gp.walkTileVisit row column).walkedBonusCheck row column
  else { gp with walkedSuccess := initialWalkingArray }

/-- GameProperties.prototype.playerReachedTopRow (app.js lines 927-939);
the splash sound is an external effect. -/
def GameProperties.playerReachedTopRow (gp : GameProperties) (column : ℕ) :
    GameProperties :=
  if gp.pointsTrackingModesOn then gp.addPoints 0 column (-30)
  else { gp with consecutiveSuccesses := gp.consecutiveSuccesses + 1 }

/-- GameProperties.prototype.update (app.js lines 965-979).  The backwards
splice loop removes exactly the entries with counter <= 0 (keeping the
order of the rest), i.e. it filters on 0 < counter; the remaining entries
are then updated with the tick's dt.  The pause-screen character update in
the middle does not touch scoring state. -/
def GameProperties.update (gp : GameProperties) (dt : ℚ) : GameProperties :=
  { gp with
    showPoints :=
      (gp.showPoints.filter (fun sp => decide (0 < sp.counter))).map
        (fun sp => sp.update dt) }

/-! ### Collectible / CollectibleManager -/

/-- A Collectible (app.js lines 466-471): a MovableItem of width 95 and
vertical buffer 57 carrying a point value and sprite.  Only position,
points and sprite vary between collectibles. -/
structure Collectible where
  x : ℚ
  y : ℚ
  points : ℤ
  sprite : String

/-- CollectibleManager.availableCollectibles (app.js lines 488-492). -/
def availableCollectibles : List (String × ℤ) :=
  [("images/gem-blue.png", 25), ("images/gem-orange.png", 50),
   ("images/gem-green.png", 75)]

/-- The CollectibleManager state (app.js lines 482-499): usable rows and
columns plus the list of active collectibles. -/
structure CollectibleManager where
  rows : ℕ
  columns : ℕ
  currentCollectibles : List Collectible

/-- CollectibleManager.prototype.resetCollectible (app.js lines 506-517):
pick a random tier, column and row, pop the previous collectible if any and
push exactly one new one.  r1, r2, r3 are the three Math.random() draws; for
draws in [0,1) the computed index is always in range, so `getD` with a
default entry agrees with the source there. -/
def CollectibleManager.resetCollectible (cm : CollectibleManager)
    (r1 r2 r3 : ℚ) : CollectibleManager :=
  let sel := (⌊r1 * (availableCollectibles.length : ℚ)⌋).toNat
  let chosen := availableCollectibles.getD sel ("images/gem-blue.png", 25)
  let x : ℚ := (⌊r2 * (cm.columns : ℚ)⌋ : ℚ) * HORIZONTAL_TILE_WIDTH
  let y : ℚ := ((⌊r3 * (cm.rows : ℚ)⌋ : ℚ) + 1) * VISIBLE_VERTICAL_TILE_HEIGHT
  let rest :=
    if cm.currentCollectibles.length ≠ 0 then cm.currentCollectibles.dropLast
    else cm.currentCollectibles
  { cm with currentCollectibles := rest ++ [⟨x, y, chosen.2, chosen.1⟩] }

/-- CollectibleManager.prototype.removeCollectibles (app.js lines 531-533). -/
def CollectibleManager.removeCollectibles (cm : CollectibleManager) :
    CollectibleManager :=
  { cm with currentCollectibles := [] }

/-- The global collectibleManager is constructed as
`new CollectibleManager(3, 5)` while `collectiblesOn` is false, so no
initial collectible is spawned (app.js lines 496-498, 1159). -/
def CollectibleManager.init : CollectibleManager :=
  { rows := 3, columns := 5, currentCollectibles := [] }

/-! ### The combined state machine (scoring engine + collectible manager)

The program's externally reachable operations are the pause-screen mode
toggles and the per-tick updates (enemy collision check, collectible pickup
check, tile-walk check, collectible-manager update, popup decay).  Each is
embedded as an `Op`; parameters stand for the environment's inputs: the
player's tile, whether a geometric collision occurred this tick, the random
draws, and the tick's time delta. -/

structure GameState where
  gp : GameProperties
  cm : CollectibleManager

/-- GameProperties.prototype.toggleColouredTileMode (app.js lines 818-821). -/
def GameState.toggleColouredTileMode (s : GameState) : GameState :=
  ⟨({ s.gp with colouredTileModeOn := !s.gp.colouredTileModeOn }).reset, s.cm⟩

/-- GameProperties.prototype.toggleCollectiblesMode (app.js lines 827-833):
if the mode was toggled off, the manager drops its collectibles. -/
def GameState.toggleCollectiblesMode (s : GameState) : GameState :=
  let gp1 := { s.gp with collectiblesOn := !s.gp.collectiblesOn }
  let cm1 := if gp1.collectiblesOn = false then s.cm.removeCollectibles else s.cm
  ⟨gp1.reset, cm1⟩

/-- GameProperties.prototype.toggleAlternateDirectionsMode (app.js lines
840-848); flipping the enemy sprites only affects the enemy objects, which
are modelled separately. -/
def GameState.toggleAlternateDirectionsMode (s : GameState) : GameState :=
  ⟨({ s.gp with alternateDirectionsOn := !s.gp.alternateDirectionsOn }).reset, s.cm⟩

/-- Player.prototype._checkCollectibleCollisions (app.js lines 340-352):
if an active collectible geometrically collides with the player, report the
pickup with the collectible's points and respawn it.  `collides` abstracts
the geometric test's outcome; the manager holds at most one collectible in
every reachable state (proved below), so the source's loop visits at most
the head of the list. -/
def GameState.checkCollectibleCollisions (s : GameState) (collides : Bool)
    (row column : ℕ) (r1 r2 r3 : ℚ) : GameState :=
  match s.cm.currentCollectibles with
  | [] => s
  | c :: _ =>
    if collides then
      ⟨s.gp.playerCollectedItem row column c.points, s.cm.resetCollectible r1 r2 r3⟩
    else s

/-- CollectibleManager.prototype.update (app.js lines 522-526). -/
def GameState.collectibleManagerUpdate (s : GameState) (r1 r2 r3 : ℚ) : GameState :=
  if s.gp.collectiblesOn = true ∧ s.cm.currentCollectibles.length = 0 then
    ⟨s.gp, s.cm.resetCollectible r1 r2 r3⟩
  else s

/-- One externally triggerable operation on the combined state. -/
inductive Op where
  | toggleColoured : Op
  | toggleCollectibles : Op
  | toggleAlt : Op
  | enemyCollision : Op
  | pickup (collides : Bool) (row column : ℕ) (r1 r2 r3 : ℚ) : Op
  | tileWalk (row column : ℕ) : Op
  | reachTop (column : ℕ) : Op
  | cmUpdate (r1 r2 r3 : ℚ) : Op
  | gpUpdate (dt : ℚ) : Op

/-- Apply one operation.  `tileWalk` carries the guard of
Player.prototype._checkPlayerLocation (app.js lines 360-365): the scoring
engine is only notified when the player is on a stone row (row < 3). -/
def applyOp (s : GameState) : Op → GameState
  | Op.toggleColoured => s.toggleColouredTileMode
  | Op.toggleCollectibles => s.toggleCollectiblesMode
  | Op.toggleAlt => s.toggleAlternateDirectionsMode
  | Op.enemyCollision => ⟨s.gp.playerCollidedWithEnemy, s.cm⟩
  | Op.pickup collides row column r1 r2 r3 =>
      s.checkCollectibleCollisions collides row column r1 r2 r3
  | Op.tileWalk row column =>
      if row < 3 then ⟨s.gp.playerWalkedOnStoneTile row column, s.cm⟩ else s
  | Op.reachTop column => ⟨s.gp.playerReachedTopRow column, s.cm⟩
  | Op.cmUpdate r1 r2 r3 => s.collectibleManagerUpdate r1 r2 r3
  | Op.gpUpdate dt => ⟨s.gp.update dt, s.cm⟩

/-- Apply a sequence of operations, oldest first. -/
def applyOps (s : GameState) (ops : List Op) : GameState :=
  ops.foldl applyOp s

/-- The state right after the global objects are constructed. -/
def GameState.init : GameState :=
  ⟨GameProperties.init, CollectibleManager.init⟩

/-- A state is reachable when some operation sequence produces it from the
initial state. -/
def Reachable (s : GameState) : Prop :=
  ∃ ops : List Op, applyOps GameState.init ops = s

/-- The reachability invariant: with both point-tracking modes off the
current score is 0; the best score is never negative; with collectibles
mode off no collectible is active; and at most one collectible ever
exists. -/
def Inv (s : GameState) : Prop :=
  (s.gp.colouredTileModeOn = false → s.gp.collectiblesOn = false →
      s.gp.currentGamePoints = 0) ∧
  0 ≤ s.gp.bestGamePoints ∧
  (s.gp.collectiblesOn = false → s.cm.currentCollectibles = []) ∧
  s.cm.currentCollectibles.length ≤ 1

/-! ### Enemy -/

/-- Enemy constructor constants (app.js lines 152-156): vertical buffer 57,
visible width 86 (half 43). -/
def enemyVerticalBuffer : ℚ := 57

/-- Half of the enemy's visible width 86. -/
def enemyHalfVisibleWidth : ℚ := 43

/-- The Enemy state: position, speed and sprite. -/
structure Enemy where
  x : ℚ
  y : ℚ
  speed : ℤ
  sprite : String

/-- The MovableItem geometry of an enemy. -/
def Enemy.toMovableItem (e : Enemy) : MovableItem :=
  ⟨e.x, e.y, enemyHalfVisibleWidth, enemyVerticalBuffer⟩

/-- MovableItem.prototype.onRow applied to an enemy. -/
def Enemy.onRow (e : Enemy) : ℤ :=
  e.toMovableItem.onRow

/-- Enemy.prototype.generateYPosition (app.js lines 165-167):
floor(random * 3) * 83 + 57; r is the Math.random() draw. -/
def Enemy.generateYPosition (r : ℚ) : ℚ :=
  (⌊r * 3⌋ : ℚ) * VISIBLE_VERTICAL_TILE_HEIGHT + enemyVerticalBuffer

/-- Enemy.prototype._leftMostXPosition (app.js lines 173-175); this is also
every enemy's startingXPosition, since the constructor places enemies
there. -/
def leftMostXPosition : ℚ := -HORIZONTAL_TILE_WIDTH - 2

/-- Enemy.prototype._rightMostXPosition (app.js lines 181-183);
ctx.canvas.width = 505 (engine.js line 29). -/
def rightMostXPosition : ℚ := 505 + 2

/-- Enemy.prototype.isReversedEnemy (app.js lines 220-222); altOn is the
global gameProperties.alternateDirectionsOn flag. -/
def Enemy.isReversedEnemy (altOn : Bool) (e : Enemy) : Bool :=
  altOn && decide (e.onRow = 1)

/-- JS String.prototype.indexOf(pat) != -1: pat occurs somewhere in the
character list. -/
def hasSubList (pat : List Char) : List Char → Bool
  | [] => decide (pat = [])
  | c :: t => pat.isPrefixOf (c :: t) || hasSubList pat t

/-- JS String.prototype.replace(pat, repl): replace the FIRST occurrence of
pat only. -/
def replaceFirst (pat repl : List Char) : List Char → List Char
  | [] => []
  | c :: t =>
    if pat.isPrefixOf (c :: t) then repl ++ (c :: t).drop pat.length
    else c :: replaceFirst pat repl t

/-- JS String.prototype.split(sep) for a one-character separator. -/
def splitOnChar (sep : Char) : List Char → List (List Char)
  | [] => [[]]
  | c :: t =>
    let rest := splitOnChar sep t
    if c = sep then [] :: rest
    else
      match rest with
      | [] => [[c]]
      | h :: r => (c :: h) :: r

/-- Enemy.prototype.reverseEnemyImage (app.js lines 285-294): if
`indexOf('-reversed') != -1`, strip the (first) "-reversed"; otherwise
split on '.' and insert "-reversed." between name and extension. -/
def reverseEnemyImage (s : String) : String :=
  if hasSubList "-reversed".data s.data then
    String.mk (replaceFirst "-reversed".data [] s.data)
  else
    String.mk (((splitOnChar '.' s.data).getD 0 []) ++
      ("-reversed.".data ++ ((splitOnChar '.' s.data).getD 1 [])))

/-- The if chain of Enemy.prototype.setSpriteBySpeed (app.js lines 266-276):
a speed below every threshold leaves the sprite unchanged. -/
def Enemy.baseSpriteForSpeed (e : Enemy) : String :=
  if e.speed ≥ 300 then "images/enemy-bug-green.png"
  else if e.speed ≥ 250 then "images/enemy-bug-yellow.png"
  else if e.speed ≥ 200 then "images/enemy-bug-red.png"
  else if e.speed ≥ 150 then "images/enemy-bug-purple.png"
  else if e.speed ≥ 100 then "images/enemy-bug-blue.png"
  else e.sprite

/-- Enemy.prototype.setSpriteBySpeed (app.js lines 265-280): assign the
band sprite, then flip it when the enemy is reversed. -/
def Enemy.setSpriteBySpeed (altOn : Bool) (e : Enemy) : Enemy :=
  let e1 := { e with sprite := e.baseSpriteForSpeed }
  if e1.isReversedEnemy altOn then { e1 with sprite := reverseEnemyImage e1.sprite }
  else e1

/-- Enemy.prototype.setSpeed (app.js lines 251-254): floor(random*300)+100,
then re-derive the sprite; r is the Math.random() draw. -/
def Enemy.setSpeed (altOn : Bool) (r : ℚ) (e : Enemy) : Enemy :=
  Enemy.setSpriteBySpeed altOn { e with speed := ⌊r * 300⌋ + 100 }

/-- Enemy.prototype.resetPosition (app.js lines 237-245): new random y, x at
the right boundary if reversed and at the starting (leftmost) x otherwise. -/
def Enemy.resetPosition (altOn : Bool) (r : ℚ) (e : Enemy) : Enemy :=
  let e1 := { e with y := Enemy.generateYPosition r }
  if e1.isReversedEnemy altOn then { e1 with x := rightMostXPosition }
  else { e1 with x := leftMostXPosition }

/-- Enemy.prototype.reset (app.js lines 227-230): resetPosition, then
setSpeed; rRow and rSpeed are the two Math.random() draws. -/
def Enemy.reset (altOn : Bool) (rRow rSpeed : ℚ) (e : Enemy) : Enemy :=
  (e.resetPosition altOn rRow).setSpeed altOn rSpeed

/-- The sprite shows the given colour tier (plain or reversed variant). -/
def spriteHasColour (s colour : String) : Prop :=
  s = ("images/enemy-bug-" ++ colour) ++ ".png" ∨
  s = ("images/enemy-bug-" ++ colour) ++ "-reversed.png"

/-! ### Concrete states used by witnesses and scenarios -/

/-- The initial scoring state with coloured-tile mode on (the state right
after pressing "1" on the fresh pause screen, minus the popup-free reset,
which is identity there). -/
def gColoured : GameProperties :=
  { GameProperties.init with colouredTileModeOn := true }

/-- A coloured-tile game with 14 of the 15 crossable tiles recorded. -/
def gAlmostFull : GameProperties :=
  { gColoured with walkedSuccess := [[0, 1, 2, 3, 4], [0, 1, 2, 3, 4], [0, 1, 2, 3]] }

/-- Three successive tile walks through three distinct unvisited tiles in
column 2 (the spec's three moves up from the starting tile). -/
def walkScenario : GameProperties :=
  ((gColoured.playerWalkedOnStoneTile 2 2).playerWalkedOnStoneTile 1 2).playerWalkedOnStoneTile 0 2

/-- The reachable state right after toggling collectibles mode on. -/
def sColl : GameState :=
  applyOps GameState.init [Op.toggleCollectibles]

/-- A scoring state holding one fully faded popup. -/
def gpDeadPopup : GameProperties :=
  { GameProperties.init with showPoints := [⟨0, 0, 5, 0⟩] }

/-- A concrete enemy (as built by the constructor, before any reset). -/
def enemy0 : Enemy :=
  ⟨leftMostXPosition, 57, 100, "images/enemy-bug-blue.png"⟩

/-! ### Helper lemmas -/

lemma reset_bestGamePoints (gp : GameProperties) :
    gp.reset.bestGamePoints = max gp.bestGamePoints gp.currentGamePoints := by
  simp only [GameProperties.reset]
  rcases lt_or_ge gp.bestGamePoints gp.currentGamePoints with h | h
  · rw [if_pos h, max_eq_right h.le]
  · rw [if_neg (not_lt.mpr h), max_eq_left h]

lemma reset_best_nonneg (gp : GameProperties) (h : 0 ≤ gp.bestGamePoints) :
    0 ≤ gp.reset.bestGamePoints := by
  rw [reset_bestGamePoints]
  exact le_max_of_le_left h

lemma walkTileVisit_proj (gp : GameProperties) (row column : ℕ) :
    (gp.walkTileVisit row column).colouredTileModeOn = gp.colouredTileModeOn ∧
    (gp.walkTileVisit row column).collectiblesOn = gp.collectiblesOn ∧
    (gp.walkTileVisit row column).bestGamePoints = gp.bestGamePoints ∧
    (gp.walkTileVisit row column).consecutiveSuccesses = gp.consecutiveSuccesses := by
  unfold GameProperties.walkTileVisit
  split <;> exact ⟨rfl, rfl, rfl, rfl⟩

lemma walkedBonusCheck_proj (gp : GameProperties) (row column : ℕ) :
    (gp.walkedBonusCheck row column).colouredTileModeOn = gp.colouredTileModeOn ∧
    (gp.walkedBonusCheck row column).collectiblesOn = gp.collectiblesOn ∧
    (gp.walkedBonusCheck row column).bestGamePoints = gp.bestGamePoints ∧
    (gp.walkedBonusCheck row column).consecutiveSuccesses = gp.consecutiveSuccesses := by
  unfold GameProperties.walkedBonusCheck
  split <;> exact ⟨rfl, rfl, rfl, rfl⟩

lemma playerWalkedOnStoneTile_proj (gp : GameProperties) (row column : ℕ) :
    (gp.playerWalkedOnStoneTile row column).colouredTileModeOn = gp.colouredTileModeOn ∧
    (gp.playerWalkedOnStoneTile row column).collectiblesOn = gp.collectiblesOn ∧
    (gp.playerWalkedOnStoneTile row column).bestGamePoints = gp.bestGamePoints ∧
    (gp.playerWalkedOnStoneTile row column).consecutiveSuccesses =
      gp.consecutiveSuccesses := by
  unfold GameProperties.playerWalkedOnStoneTile
  split
  · obtain ⟨v1, v2, v3, v4⟩ := walkTileVisit_proj gp row column
    obtain ⟨b1, b2, b3, b4⟩ := walkedBonusCheck_proj (gp.walkTileVisit row column) row column
    exact ⟨b1.trans v1, b2.trans v2, b3.trans v3, b4.trans v4⟩
  · exact ⟨rfl, rfl, rfl, rfl⟩

lemma playerWalkedOnStoneTile_current_off (gp : GameProperties) (row column : ℕ)
    (h : gp.colouredTileModeOn = false) :
    (gp.playerWalkedOnStoneTile row column).currentGamePoints =
      gp.currentGamePoints := by
  unfold GameProperties.playerWalkedOnStoneTile
  rw [if_neg (by simp [h])]

lemma resetCollectible_length (cm : CollectibleManager) (r1 r2 r3 : ℚ)
    (h : cm.currentCollectibles.length ≤ 1) :
    (cm.resetCollectible r1 r2 r3).currentCollectibles.length = 1 := by
  simp only [CollectibleManager.resetCollectible, List.length_append]
  split
  · next hne =>
      simp only [List.length_dropLast, List.length_cons, List.length_nil]
      omega
  · next hz =>
      simp only [List.length_cons, List.length_nil]
      omega

lemma length_filter_lt_of_mem_not {α : Type} (l : List α) (p : α → Bool) (x : α)
    (hx : x ∈ l) (hpx : p x = false) : (l.filter p).length < l.length := by
  induction l with
  | nil => cases hx
  | cons a t ih =>
      rcases List.mem_cons.mp hx with rfl | hxt
      · rw [List.filter_cons, hpx]
        simp only [List.length_cons]
        exact Nat.lt_succ_of_le (List.length_filter_le p t)
      · rw [List.filter_cons]
        cases hpa : p a
        · simp only [List.length_cons]
          exact Nat.lt_succ_of_lt (ih hxt)
        · simp only [List.length_cons]
          exact Nat.succ_lt_succ (ih hxt)

lemma best_mono_applyOp (s : GameState) (op : Op) :
    s.gp.bestGamePoints ≤ (applyOp s op).gp.bestGamePoints := by
  cases op with
  | toggleColoured =>
      show s.gp.bestGamePoints ≤
        ({ s.gp with colouredTileModeOn := !s.gp.colouredTileModeOn }).reset.bestGamePoints
      rw [reset_bestGamePoints]
      exact le_max_left _ _
  | toggleCollectibles =>
      show s.gp.bestGamePoints ≤
        ({ s.gp with collectiblesOn := !s.gp.collectiblesOn }).reset.bestGamePoints
      rw [reset_bestGamePoints]
      exact le_max_left _ _
  | toggleAlt =>
      show s.gp.bestGamePoints ≤
        ({ s.gp with
            alternateDirectionsOn := !s.gp.alternateDirectionsOn }).reset.bestGamePoints
      rw [reset_bestGamePoints]
      exact le_max_left _ _
  | enemyCollision =>
      show s.gp.bestGamePoints ≤ s.gp.playerCollidedWithEnemy.bestGamePoints
      unfold GameProperties.playerCollidedWithEnemy
      rw [reset_bestGamePoints]
      exact le_max_left _ _
  | pickup collides row column r1 r2 r3 =>
      show s.gp.bestGamePoints ≤
        (s.checkCollectibleCollisions collides row column r1 r2 r3).gp.bestGamePoints
      unfold GameState.checkCollectibleCollisions
      cases hc : s.cm.currentCollectibles with
      | nil => exact le_refl _
      | cons c rest =>
          cases collides
          · simp
          · simp [GameProperties.playerCollectedItem, GameProperties.addPoints]
  | tileWalk row column =>
      simp only [applyOp]
      split
      · exact le_of_eq (playerWalkedOnStoneTile_proj s.gp row column).2.2.1.symm
      · exact le_refl _
  | reachTop column =>
      show s.gp.bestGamePoints ≤ (s.gp.playerReachedTopRow column).bestGamePoints
      unfold GameProperties.playerReachedTopRow
      split <;> exact le_refl _
  | cmUpdate r1 r2 r3 =>
      simp only [applyOp, GameState.collectibleManagerUpdate]
      split <;> exact le_refl _
  | gpUpdate dt => exact le_refl _

lemma inv_init : Inv GameState.init :=
  ⟨fun _ _ => rfl, le_refl 0, fun _ => rfl, Nat.zero_le 1⟩

lemma inv_applyOp (s : GameState) (op : Op) (h : Inv s) : Inv (applyOp s op) := by
  obtain ⟨h1, h2, h3, h4⟩ := h
  cases op with
  | toggleColoured =>
      exact ⟨fun _ _ => rfl, reset_best_nonneg _ h2, fun hoff => h3 hoff, h4⟩
  | toggleCollectibles =>
      refine ⟨fun _ _ => rfl, reset_best_nonneg _ h2, ?_, ?_⟩
      · intro hoff
        replace hoff : (!s.gp.collectiblesOn) = false := hoff
        show (if (!s.gp.collectiblesOn) = false then s.cm.removeCollectibles
              else s.cm).currentCollectibles = []
        rw [if_pos hoff]
        rfl
      · show (if (!s.gp.collectiblesOn) = false then s.cm.removeCollectibles
              else s.cm).currentCollectibles.length ≤ 1
        split
        · exact Nat.zero_le 1
        · exact h4
  | toggleAlt =>
      exact ⟨fun _ _ => rfl, reset_best_nonneg _ h2, fun hoff => h3 hoff, h4⟩
  | enemyCollision =>
      exact ⟨fun _ _ => rfl, reset_best_nonneg _ h2, fun hoff => h3 hoff, h4⟩
  | pickup collides row column r1 r2 r3 =>
      show Inv (s.checkCollectibleCollisions collides row column r1 r2 r3)
      unfold GameState.checkCollectibleCollisions
      cases hc : s.cm.currentCollectibles with
      | nil => exact ⟨h1, h2, h3, h4⟩
      | cons c rest =>
          cases collides
          · exact ⟨h1, h2, h3, h4⟩
          · show Inv ⟨s.gp.playerCollectedItem row column c.points,
                      s.cm.resetCollectible r1 r2 r3⟩
            have hon : s.gp.collectiblesOn = true := by
              cases hb : s.gp.collectiblesOn
              · rw [h3 hb] at hc
                cases hc
              · rfl
            refine ⟨?_, h2, ?_, ?_⟩
            · intro _ hcoff
              rw [show (s.gp.playerCollectedItem row column c.points).collectiblesOn =
                    s.gp.collectiblesOn from rfl] at hcoff
              rw [hon] at hcoff
              cases hcoff
            · intro hcoff
              rw [show (s.gp.playerCollectedItem row column c.points).collectiblesOn =
                    s.gp.collectiblesOn from rfl] at hcoff
              rw [hon] at hcoff
              cases hcoff
            · exact le_of_eq (resetCollectible_length s.cm r1 r2 r3 h4)
  | tileWalk row column =>
      simp only [applyOp]
      split
      · obtain ⟨p1, p2, p3, _⟩ := playerWalkedOnStoneTile_proj s.gp row column
        refine ⟨?_, ?_, ?_, h4⟩
        · intro hcol hcoff
          rw [p1] at hcol
          rw [p2] at hcoff
          rw [playerWalkedOnStoneTile_current_off s.gp row column hcol]
          exact h1 hcol hcoff
        · rw [p3]
          exact h2
        · intro hcoff
          rw [p2] at hcoff
          exact h3 hcoff
      · exact ⟨h1, h2, h3, h4⟩
  | reachTop column =>
      simp only [applyOp]
      have hflags : (s.gp.playerReachedTopRow column).colouredTileModeOn =
            s.gp.colouredTileModeOn ∧
          (s.gp.playerReachedTopRow column).collectiblesOn = s.gp.collectiblesOn ∧
          (s.gp.playerReachedTopRow column).bestGamePoints = s.gp.bestGamePoints := by
        unfold GameProperties.playerReachedTopRow
        split <;> exact ⟨rfl, rfl, rfl⟩
      obtain ⟨p1, p2, p3⟩ := hflags
      refine ⟨?_, ?_, ?_, h4⟩
      · intro hcol hcoff
        rw [p1] at hcol
        rw [p2] at hcoff
        have hcur : s.gp.currentGamePoints = 0 := h1 hcol hcoff
        show (s.gp.playerReachedTopRow column).currentGamePoints = 0
        unfold GameProperties.playerReachedTopRow
        rw [if_neg (by simp [GameProperties.pointsTrackingModesOn, hcol, hcoff])]
        exact hcur
      · rw [p3]
        exact h2
      · intro hcoff
        rw [p2] at hcoff
        exact h3 hcoff
  | cmUpdate r1 r2 r3 =>
      show Inv (s.collectibleManagerUpdate r1 r2 r3)
      unfold GameState.collectibleManagerUpdate
      split
      · next hcond =>
          refine ⟨h1, h2, ?_, ?_⟩
          · intro hcoff
            rw [hcond.1] at hcoff
            cases hcoff
          · exact le_of_eq (resetCollectible_length s.cm r1 r2 r3 h4)
      · exact ⟨h1, h2, h3, h4⟩
  | gpUpdate dt =>
      exact ⟨h1, h2, h3, h4⟩

lemma inv_applyOps (s : GameState) (ops : List Op) (h : Inv s) :
    Inv (applyOps s ops) := by
  induction ops generalizing s with
  | nil => exact h
  | cons op rest ih => exact ih (applyOp s op) (inv_applyOp s op h)

lemma inv_reachable (s : GameState) (hs : Reachable s) : Inv s := by
  obtain ⟨ops, hops⟩ := hs
  rw [← hops]
  exact inv_applyOps GameState.init ops inv_init

lemma onRow_of_tile (x w : ℚ) (k : ℤ) :
    MovableItem.onRow ⟨x, (k : ℚ) * VISIBLE_VERTICAL_TILE_HEIGHT + 57, w, 57⟩ = k := by
  unfold MovableItem.onRow VISIBLE_VERTICAL_TILE_HEIGHT
  have hadj : (k : ℚ) * 83 + 57 - 57 = (k : ℚ) * 83 := by ring
  simp only [hadj]
  by_cases hk : (k : ℚ) * 83 ≠ 0
  · rw [if_pos hk]
    rw [mul_div_assoc, div_self (by norm_num : (83 : ℚ) ≠ 0), mul_one, Int.floor_intCast]
  · rw [if_neg hk]
    push_neg at hk
    have h83 : (k : ℚ) = 0 := by
      rcases mul_eq_zero.mp hk with h | h
      · exact h
      · norm_num at h
    have : k = 0 := by exact_mod_cast h83
    omega

lemma floor_mul3_bounds (r : ℚ) (h0 : 0 ≤ r) (h1 : r < 1) :
    0 ≤ ⌊r * 3⌋ ∧ ⌊r * 3⌋ ≤ 2 := by
  constructor
  · exact Int.floor_nonneg.mpr (mul_nonneg h0 (by norm_num))
  · have hlt : r * 3 < ((3 : ℤ) : ℚ) := by
      push_cast
      linarith
    have := Int.floor_lt.mpr hlt
    omega

lemma floor_mul300_bounds (r : ℚ) (h0 : 0 ≤ r) (h1 : r < 1) :
    0 ≤ ⌊r * 300⌋ ∧ ⌊r * 300⌋ ≤ 299 := by
  constructor
  · exact Int.floor_nonneg.mpr (mul_nonneg h0 (by norm_num))
  · have hlt : r * 300 < ((300 : ℤ) : ℚ) := by
      push_cast
      linarith
    have := Int.floor_lt.mpr hlt
    omega

lemma setSpriteBySpeed_speed (altOn : Bool) (e : Enemy) :
    (Enemy.setSpriteBySpeed altOn e).speed = e.speed := by
  simp only [Enemy.setSpriteBySpeed]
  split <;> rfl

lemma setSpriteBySpeed_y (altOn : Bool) (e : Enemy) :
    (Enemy.setSpriteBySpeed altOn e).y = e.y := by
  simp only [Enemy.setSpriteBySpeed]
  split <;> rfl

lemma resetPosition_y (altOn : Bool) (r : ℚ) (e : Enemy) :
    (Enemy.resetPosition altOn r e).y = Enemy.generateYPosition r := by
  simp only [Enemy.resetPosition]
  split <;> rfl

lemma reset_speed (altOn : Bool) (rRow rSpeed : ℚ) (e : Enemy) :
    (Enemy.reset altOn rRow rSpeed e).speed = ⌊rSpeed * 300⌋ + 100 := by
  unfold Enemy.reset Enemy.setSpeed
  rw [setSpriteBySpeed_speed]

lemma reset_y (altOn : Bool) (rRow rSpeed : ℚ) (e : Enemy) :
    (Enemy.reset altOn rRow rSpeed e).y = Enemy.generateYPosition rRow := by
  unfold Enemy.reset Enemy.setSpeed
  rw [setSpriteBySpeed_y]
  exact resetPosition_y altOn rRow e

lemma enemy_onRow_eq (e : Enemy) (k : ℤ)
    (hy : e.y = (k : ℚ) * VISIBLE_VERTICAL_TILE_HEIGHT + 57) : e.onRow = k := by
  unfold Enemy.onRow Enemy.toMovableItem
  rw [show enemyVerticalBuffer = (57 : ℚ) from rfl, hy]
  exact onRow_of_tile e.x enemyHalfVisibleWidth k

/-- The sprite after setSpriteBySpeed shows the colour of the chosen base
sprite, plain or reversed. -/
lemma setSpriteBySpeed_sprite (altOn : Bool) (e : Enemy) (colour : String)
    (hbase : e.baseSpriteForSpeed = ("images/enemy-bug-" ++ colour) ++ ".png")
    (hrev : reverseEnemyImage (("images/enemy-bug-" ++ colour) ++ ".png") =
      ("images/enemy-bug-" ++ colour) ++ "-reversed.png") :
    spriteHasColour (Enemy.setSpriteBySpeed altOn e).sprite colour := by
  unfold Enemy.setSpriteBySpeed
  simp only [hbase]
  split
  · right
    rw [show (Enemy.mk e.x e.y e.speed
        (reverseEnemyImage (("images/enemy-bug-" ++ colour) ++ ".png"))).sprite =
        reverseEnemyImage (("images/enemy-bug-" ++ colour) ++ ".png") from rfl, hrev]
  · left
    rfl

lemma baseSpriteForSpeed_blue (e : Enemy) (h1 : 100 ≤ e.speed) (h2 : e.speed ≤ 149) :
    e.baseSpriteForSpeed = ("images/enemy-bug-" ++ "blue") ++ ".png" := by
  unfold Enemy.baseSpriteForSpeed
  rw [if_neg (by omega), if_neg (by omega), if_neg (by omega), if_neg (by omega),
    if_pos (by omega)]
  rfl

lemma baseSpriteForSpeed_purple (e : Enemy) (h1 : 150 ≤ e.speed) (h2 : e.speed ≤ 199) :
    e.baseSpriteForSpeed = ("images/enemy-bug-" ++ "purple") ++ ".png" := by
  unfold Enemy.baseSpriteForSpeed
  rw [if_neg (by omega), if_neg (by omega), if_neg (by omega), if_pos (by omega)]
  rfl

lemma baseSpriteForSpeed_red (e : Enemy) (h1 : 200 ≤ e.speed) (h2 : e.speed ≤ 249) :
    e.baseSpriteForSpeed = ("images/enemy-bug-" ++ "red") ++ ".png" := by
  unfold Enemy.baseSpriteForSpeed
  rw [if_neg (by omega), if_neg (by omega), if_pos (by omega)]
  rfl

lemma baseSpriteForSpeed_yellow (e : Enemy) (h1 : 250 ≤ e.speed) (h2 : e.speed ≤ 299) :
    e.baseSpriteForSpeed = ("images/enemy-bug-" ++ "yellow") ++ ".png" := by
  unfold Enemy.baseSpriteForSpeed
  rw [if_neg (by omega), if_pos (by omega)]
  rfl

lemma baseSpriteForSpeed_green (e : Enemy) (h1 : 300 ≤ e.speed) :
    e.baseSpriteForSpeed = ("images/enemy-bug-" ++ "green") ++ ".png" := by
  unfold Enemy.baseSpriteForSpeed
  rw [if_pos (by omega)]
  rfl

/-! ### Claims -/

/-- C1 (counterexample): the collision test is not symmetric.  A player
(narrow visible interval) standing on the same tile as an enemy (wide
visible interval) collides from the enemy's point of view but not from the
player's: the player's interval is strictly contained in the enemy's, and
the code only tests the argument's edges against the receiver's interval. -/
theorem collidingWith_not_symmetric_cex :
    MovableItem.collidingWith enemyItem playerItem = true ∧
    MovableItem.collidingWith playerItem enemyItem = false := by
  constructor <;>
  · simp only [MovableItem.collidingWith, MovableItem.onRow, MovableItem.visibleLeft,
      MovableItem.visibleRight, MovableItem.midPoint, enemyItem, playerItem,
      HORIZONTAL_TILE_WIDTH, VISIBLE_VERTICAL_TILE_HEIGHT]
    norm_num

/-- C1 (amended): the collision test is symmetric for items of equal half
visible width (in particular for any two enemies, or any two items of the
same kind); symmetry can only fail when one visible interval strictly
contains the other, which requires different widths. -/
theorem collidingWith_symm_of_width_eq (a b : MovableItem)
    (h : a.halfVisibleWidth = b.halfVisibleWidth) :
    a.collidingWith b = b.collidingWith a := by
  unfold MovableItem.collidingWith
  by_cases hrow : a.onRow = b.onRow
  · rw [if_pos hrow, if_pos hrow.symm, decide_eq_decide]
    unfold MovableItem.visibleRight MovableItem.visibleLeft
    rw [h]
    constructor
    · rintro (⟨h1, h2⟩ | ⟨h1, h2⟩)
      · right
        constructor <;> linarith
      · left
        constructor <;> linarith
    · rintro (⟨h1, h2⟩ | ⟨h1, h2⟩)
      · right
        constructor <;> linarith
      · left
        constructor <;> linarith
  · rw [if_neg hrow, if_neg (fun hh => hrow hh.symm)]

/-- C1 (witness): the amended symmetry theorem applied to two concrete
enemy-shaped items on the same row. -/
theorem collidingWith_symm_of_width_eq_witness :
    enemyItem.halfVisibleWidth = enemyItem.halfVisibleWidth ∧
    MovableItem.collidingWith enemyItem enemyItem =
      MovableItem.collidingWith enemyItem enemyItem :=
  ⟨rfl, collidingWith_symm_of_width_eq enemyItem enemyItem rfl⟩

/-- C2 (counterexample): the code does not implement the two-sided overlap
test of the spec.  With the player's interval strictly inside the enemy's,
the spec's formula reports an overlap (the player's left edge is strictly
inside the enemy's interval) but `collidingWith player enemy` is false. -/
theorem collidingWith_spec_overlap_cex :
    MovableItem.collidingWith playerItem enemyItem = false ∧
    specCollides playerItem enemyItem := by
  constructor <;>
  · simp only [MovableItem.collidingWith, specCollides, MovableItem.onRow,
      MovableItem.visibleLeft, MovableItem.visibleRight, MovableItem.midPoint,
      enemyItem, playerItem, HORIZONTAL_TILE_WIDTH, VISIBLE_VERTICAL_TILE_HEIGHT]
    norm_num

/-- C2 (amended): `collidingWith a b` is true iff the rows agree and one of
the ARGUMENT b's visible edges lies strictly inside the RECEIVER a's visible
interval (the receiver's edges are never tested against the argument's
interval); and when the two intervals merely touch at an edge no collision
is reported (given a nondegenerate argument interval). -/
theorem collidingWith_characterization (a b : MovableItem)
    (hb : 0 ≤ b.halfVisibleWidth) :
    (a.collidingWith b = true ↔
      (a.onRow = b.onRow ∧
        ((a.visibleLeft < b.visibleLeft ∧ b.visibleLeft < a.visibleRight) ∨
         (a.visibleLeft < b.visibleRight ∧ b.visibleRight < a.visibleRight)))) ∧
    ((b.visibleRight = a.visibleLeft ∨ b.visibleLeft = a.visibleRight) →
      a.collidingWith b = false) := by
  have hbound : b.visibleLeft ≤ b.visibleRight := by
    unfold MovableItem.visibleLeft MovableItem.visibleRight
    linarith
  constructor
  · unfold MovableItem.collidingWith
    by_cases hrow : a.onRow = b.onRow
    · rw [if_pos hrow]
      simp only [decide_eq_true_eq]
      constructor
      · rintro (⟨h1, h2⟩ | ⟨h1, h2⟩)
        · exact ⟨hrow, Or.inl ⟨h2, h1⟩⟩
        · exact ⟨hrow, Or.inr ⟨h2, h1⟩⟩
      · rintro ⟨_, (⟨h1, h2⟩ | ⟨h1, h2⟩)⟩
        · exact Or.inl ⟨h2, h1⟩
        · exact Or.inr ⟨h2, h1⟩
    · rw [if_neg hrow]
      constructor
      · intro h
        exact absurd h (by simp)
      · rintro ⟨h, _⟩
        exact absurd h hrow
  · intro htouch
    unfold MovableItem.collidingWith
    by_cases hrow : a.onRow = b.onRow
    · rw [if_pos hrow]
      simp only [decide_eq_false_iff_not]
      rcases htouch with h | h
      · rintro (⟨h1, h2⟩ | ⟨h1, h2⟩) <;> linarith
      · rintro (⟨h1, h2⟩ | ⟨h1, h2⟩) <;> linarith
    · rw [if_neg hrow]

/-- C2 (witness): the characterization applied to concrete enemy and player
items on the same row. -/
theorem collidingWith_characterization_witness :
    (0 : ℚ) ≤ playerItem.halfVisibleWidth ∧
    (MovableItem.collidingWith enemyItem playerItem = true ↔
      (enemyItem.onRow = playerItem.onRow ∧
        ((enemyItem.visibleLeft < playerItem.visibleLeft ∧
            playerItem.visibleLeft < enemyItem.visibleRight) ∨
         (enemyItem.visibleLeft < playerItem.visibleRight ∧
            playerItem.visibleRight < enemyItem.visibleRight)))) :=
  ⟨by norm_num [playerItem],
   (collidingWith_characterization enemyItem playerItem
      (by norm_num [playerItem])).1⟩

/-- C3: reset banks the best score: after any reset, bestGamePoints equals
max of the previous best and current scores; consequently bestGamePoints
never decreases across any sequence of operations. -/
theorem reset_banks_best_and_monotone :
    (∀ gp : GameProperties,
        gp.reset.bestGamePoints = max gp.bestGamePoints gp.currentGamePoints) ∧
    (∀ (s : GameState) (ops : List Op),
        s.gp.bestGamePoints ≤ (applyOps s ops).gp.bestGamePoints) := by
  constructor
  · exact reset_bestGamePoints
  · intro s ops
    induction ops generalizing s with
    | nil => exact le_refl _
    | cons op rest ih =>
        exact le_trans (best_mono_applyOp s op) (ih (applyOp s op))

/-- C5: reaching the goal row with a point-tracking mode on subtracts
exactly 30 points and leaves the success streak alone; with no
point-tracking mode on it increments the streak and leaves both scores
alone. -/
theorem playerReachedTopRow_spec (gp : GameProperties) (column : ℕ) :
    (gp.pointsTrackingModesOn = true →
      (gp.playerReachedTopRow column).currentGamePoints =
        gp.currentGamePoints - 30 ∧
      (gp.playerReachedTopRow column).consecutiveSuccesses =
        gp.consecutiveSuccesses) ∧
    (gp.pointsTrackingModesOn = false →
      (gp.playerReachedTopRow column).consecutiveSuccesses =
        gp.consecutiveSuccesses + 1 ∧
      (gp.playerReachedTopRow column).currentGamePoints = gp.currentGamePoints ∧
      (gp.playerReachedTopRow column).bestGamePoints = gp.bestGamePoints) := by
  constructor
  · intro hon
    unfold GameProperties.playerReachedTopRow
    rw [if_pos hon]
    constructor
    · show gp.currentGamePoints + (-30) = gp.currentGamePoints - 30
      omega
    · rfl
  · intro hoff
    unfold GameProperties.playerReachedTopRow
    rw [if_neg (by simp [hoff])]
    exact ⟨rfl, rfl, rfl⟩

/-- C5 (witness): the goal-reached theorem applied at a collectibles-only
state (modes-on half) and at the initial state (no-modes half). -/
theorem playerReachedTopRow_spec_witness :
    (({ GameProperties.init with collectiblesOn := true } :
        GameProperties).playerReachedTopRow 2).currentGamePoints =
      ({ GameProperties.init with collectiblesOn := true } :
        GameProperties).currentGamePoints - 30 ∧
    (GameProperties.init.playerReachedTopRow 2).consecutiveSuccesses =
      GameProperties.init.consecutiveSuccesses + 1 :=
  ⟨((playerReachedTopRow_spec
      { GameProperties.init with collectiblesOn := true } 2).1 rfl).1,
   ((playerReachedTopRow_spec GameProperties.init 2).2 rfl).1⟩

lemma modes_off_split (gp : GameProperties)
    (h : gp.pointsTrackingModesOn = false) :
    gp.colouredTileModeOn = false ∧ gp.collectiblesOn = false := by
  unfold GameProperties.pointsTrackingModesOn at h
  constructor
  · cases hc : gp.colouredTileModeOn
    · rfl
    · rw [hc] at h
      simp at h
  · cases hb : gp.collectiblesOn
    · rfl
    · rw [hb] at h
      simp at h

/-- C4: tile-walk scoring with coloured-tile mode on: a new crossable tile
adds exactly 10 points and is recorded; an already-recorded tile changes
nothing; recording the 15th tile additionally awards the 200 bonus exactly
once and empties the record; and the three-moves scenario yields exactly
30 points and 3 recorded entries. -/
theorem playerWalkedOnStoneTile_spec :
    (∀ (gp : GameProperties) (row column : ℕ),
      gp.colouredTileModeOn = true → row < 3 →
      (gp.walkedSuccess.getD row []).contains column = false →
      ¬(((gp.walkedSuccess.set row
            ((gp.walkedSuccess.getD row []) ++ [column])).getD 0 []).length = 5 ∧
        ((gp.walkedSuccess.set row
            ((gp.walkedSuccess.getD row []) ++ [column])).getD 1 []).length = 5 ∧
        ((gp.walkedSuccess.set row
            ((gp.walkedSuccess.getD row []) ++ [column])).getD 2 []).length = 5) →
      (gp.playerWalkedOnStoneTile row column).currentGamePoints =
        gp.currentGamePoints + 10 ∧
      (gp.playerWalkedOnStoneTile row column).walkedSuccess =
        gp.walkedSuccess.set row ((gp.walkedSuccess.getD row []) ++ [column])) ∧
    (∀ (gp : GameProperties) (row column : ℕ),
      gp.colouredTileModeOn = true → row < 3 →
      (gp.walkedSuccess.getD row []).contains column = true →
      ¬((gp.walkedSuccess.getD 0 []).length = 5 ∧
        (gp.walkedSuccess.getD 1 []).length = 5 ∧
        (gp.walkedSuccess.getD 2 []).length = 5) →
      gp.playerWalkedOnStoneTile row column = gp) ∧
    (∀ (gp : GameProperties) (row column : ℕ),
      gp.colouredTileModeOn = true →
      (gp.walkedSuccess.getD row []).contains column = false →
      (((gp.walkedSuccess.set row
           ((gp.walkedSuccess.getD row []) ++ [column])).getD 0 []).length = 5 ∧
       ((gp.walkedSuccess.set row
           ((gp.walkedSuccess.getD row []) ++ [column])).getD 1 []).length = 5 ∧
       ((gp.walkedSuccess.set row
           ((gp.walkedSuccess.getD row []) ++ [column])).getD 2 []).length = 5) →
      (gp.playerWalkedOnStoneTile row column).currentGamePoints =
        gp.currentGamePoints + 10 + 200 ∧
      (gp.playerWalkedOnStoneTile row column).walkedSuccess =
        initialWalkingArray) ∧
    (walkScenario.currentGamePoints = 30 ∧
      (walkScenario.walkedSuccess.map List.length).sum = 3) := by
  refine ⟨?_, ?_, ?_, by decide⟩
  · intro gp row column hcol hrow hmem hfull
    unfold GameProperties.playerWalkedOnStoneTile
    rw [if_pos hcol]
    have hv : gp.walkTileVisit row column =
        { gp.addPoints row column 10 with
          walkedSuccess :=
            gp.walkedSuccess.set row ((gp.walkedSuccess.getD row []) ++ [column]) } := by
      unfold GameProperties.walkTileVisit
      rw [if_neg (by rw [hmem]; exact Bool.false_ne_true)]
    rw [hv]
    unfold GameProperties.walkedBonusCheck
    rw [if_neg hfull]
    exact ⟨rfl, rfl⟩
  · intro gp row column hcol hrow hmem hfull
    unfold GameProperties.playerWalkedOnStoneTile
    rw [if_pos hcol]
    have hv : gp.walkTileVisit row column = gp := by
      unfold GameProperties.walkTileVisit
      rw [if_pos hmem]
    rw [hv]
    unfold GameProperties.walkedBonusCheck
    rw [if_neg hfull]
  · intro gp row column hcol hmem hfull
    unfold GameProperties.playerWalkedOnStoneTile
    rw [if_pos hcol]
    have hv : gp.walkTileVisit row column =
        { gp.addPoints row column 10 with
          walkedSuccess :=
            gp.walkedSuccess.set row ((gp.walkedSuccess.getD row []) ++ [column]) } := by
      unfold GameProperties.walkTileVisit
      rw [if_neg (by rw [hmem]; exact Bool.false_ne_true)]
    rw [hv]
    unfold GameProperties.walkedBonusCheck
    rw [if_pos hfull]
    exact ⟨rfl, rfl⟩

/-- C4 (witness): a first tile walk from the fresh coloured-tile state adds
10 points, and the 15th tile walk from the 14-tile state adds 10 + 200. -/
theorem playerWalkedOnStoneTile_spec_witness :
    (gColoured.playerWalkedOnStoneTile 0 0).currentGamePoints =
      gColoured.currentGamePoints + 10 ∧
    (gAlmostFull.playerWalkedOnStoneTile 2 4).currentGamePoints =
      gAlmostFull.currentGamePoints + 10 + 200 :=
  ⟨(playerWalkedOnStoneTile_spec.1 gColoured 0 0 rfl (by decide) (by decide)
      (by decide)).1,
   (playerWalkedOnStoneTile_spec.2.2.1 gAlmostFull 2 4 rfl (by decide)
      (by decide)).1⟩

/-- C6: in every reachable state with collectibles mode on, the manager
holds exactly one collectible after any update() call, for any outcome of
the random draws. -/
theorem collectibles_exactly_one_after_update (s : GameState) (hs : Reachable s)
    (hon : s.gp.collectiblesOn = true) (r1 r2 r3 : ℚ) :
    ((s.collectibleManagerUpdate r1 r2 r3).cm.currentCollectibles).length = 1 := by
  obtain ⟨_, _, _, h4⟩ := inv_reachable s hs
  unfold GameState.collectibleManagerUpdate
  split
  · next hcond => exact resetCollectible_length s.cm r1 r2 r3 h4
  · next hcond =>
      have hne : s.cm.currentCollectibles.length ≠ 0 := fun h0 => hcond ⟨hon, h0⟩
      omega

/-- C6 (witness): the update right after toggling collectibles mode on
spawns exactly one collectible. -/
theorem collectibles_exactly_one_after_update_witness :
    ((sColl.collectibleManagerUpdate 0 0 0).cm.currentCollectibles).length = 1 :=
  collectibles_exactly_one_after_update sColl ⟨[Op.toggleCollectibles], rfl⟩ rfl 0 0 0

/-- C7: after Enemy.reset, for any outcome of the two random draws, the row
index is in {0,1,2}, the speed is in the band [100, 399], and the sprite
colour tier matches the documented speed bands (100-149 blue, 150-199
purple, 200-249 red, 250-299 yellow, 300-399 green), in the plain or the
reversed sprite variant. -/
theorem enemy_reset_spec (e : Enemy) (altOn : Bool) (rRow rSpeed : ℚ)
    (h0 : 0 ≤ rRow) (h1 : rRow < 1) (h2 : 0 ≤ rSpeed) (h3 : rSpeed < 1) :
    (0 ≤ (e.reset altOn rRow rSpeed).onRow ∧
      (e.reset altOn rRow rSpeed).onRow ≤ 2) ∧
    (100 ≤ (e.reset altOn rRow rSpeed).speed ∧
      (e.reset altOn rRow rSpeed).speed ≤ 399) ∧
    ((100 ≤ (e.reset altOn rRow rSpeed).speed ∧
        (e.reset altOn rRow rSpeed).speed ≤ 149) →
      spriteHasColour (e.reset altOn rRow rSpeed).sprite "blue") ∧
    ((150 ≤ (e.reset altOn rRow rSpeed).speed ∧
        (e.reset altOn rRow rSpeed).speed ≤ 199) →
      spriteHasColour (e.reset altOn rRow rSpeed).sprite "purple") ∧
    ((200 ≤ (e.reset altOn rRow rSpeed).speed ∧
        (e.reset altOn rRow rSpeed).speed ≤ 249) →
      spriteHasColour (e.reset altOn rRow rSpeed).sprite "red") ∧
    ((250 ≤ (e.reset altOn rRow rSpeed).speed ∧
        (e.reset altOn rRow rSpeed).speed ≤ 299) →
      spriteHasColour (e.reset altOn rRow rSpeed).sprite "yellow") ∧
    (300 ≤ (e.reset altOn rRow rSpeed).speed →
      spriteHasColour (e.reset altOn rRow rSpeed).sprite "green") := by
  obtain ⟨hk0, hk2⟩ := floor_mul3_bounds rRow h0 h1
  obtain ⟨hs0, hs2⟩ := floor_mul300_bounds rSpeed h2 h3
  have hrow : (e.reset altOn rRow rSpeed).onRow = ⌊rRow * 3⌋ := by
    apply enemy_onRow_eq
    rw [reset_y]
    rfl
  have hspeed : (e.reset altOn rRow rSpeed).speed = ⌊rSpeed * 300⌋ + 100 :=
    reset_speed altOn rRow rSpeed e
  refine ⟨?_, ?_, ?_, ?_, ?_, ?_, ?_⟩
  · rw [hrow]
    omega
  · rw [hspeed]
    omega
  · intro hband
    rw [hspeed] at hband
    unfold Enemy.reset Enemy.setSpeed
    refine setSpriteBySpeed_sprite altOn _ "blue" ?_ (by decide)
    exact baseSpriteForSpeed_blue _ (by show 100 ≤ ⌊rSpeed * 300⌋ + 100; omega)
      (by show ⌊rSpeed * 300⌋ + 100 ≤ 149; omega)
  · intro hband
    rw [hspeed] at hband
    unfold Enemy.reset Enemy.setSpeed
    refine setSpriteBySpeed_sprite altOn _ "purple" ?_ (by decide)
    exact baseSpriteForSpeed_purple _ (by show 150 ≤ ⌊rSpeed * 300⌋ + 100; omega)
      (by show ⌊rSpeed * 300⌋ + 100 ≤ 199; omega)
  · intro hband
    rw [hspeed] at hband
    unfold Enemy.reset Enemy.setSpeed
    refine setSpriteBySpeed_sprite altOn _ "red" ?_ (by decide)
    exact baseSpriteForSpeed_red _ (by show 200 ≤ ⌊rSpeed * 300⌋ + 100; omega)
      (by show ⌊rSpeed * 300⌋ + 100 ≤ 249; omega)
  · intro hband
    rw [hspeed] at hband
    unfold Enemy.reset Enemy.setSpeed
    refine setSpriteBySpeed_sprite altOn _ "yellow" ?_ (by decide)
    exact baseSpriteForSpeed_yellow _ (by show 250 ≤ ⌊rSpeed * 300⌋ + 100; omega)
      (by show ⌊rSpeed * 300⌋ + 100 ≤ 299; omega)
  · intro hband
    rw [hspeed] at hband
    unfold Enemy.reset Enemy.setSpeed
    refine setSpriteBySpeed_sprite altOn _ "green" ?_ (by decide)
    exact baseSpriteForSpeed_green _ (by show 300 ≤ ⌊rSpeed * 300⌋ + 100; omega)

/-- C7 (witness): resetting a concrete enemy with both draws 0 lands on the
top row with the slowest speed and the blue sprite. -/
theorem enemy_reset_spec_witness :
    0 ≤ (enemy0.reset false 0 0).onRow ∧
    (enemy0.reset false 0 0).speed ≤ 399 ∧
    spriteHasColour (enemy0.reset false 0 0).sprite "blue" :=
  ⟨(enemy_reset_spec enemy0 false 0 0 (le_refl 0) (by norm_num) (le_refl 0)
      (by norm_num)).1.1,
   (enemy_reset_spec enemy0 false 0 0 (le_refl 0) (by norm_num) (le_refl 0)
      (by norm_num)).2.1.2,
   (enemy_reset_spec enemy0 false 0 0 (le_refl 0) (by norm_num) (le_refl 0)
      (by norm_num)).2.2.1
     (by rw [reset_speed]; norm_num)⟩

/-- C8: in every reachable state with both point-tracking modes off, an
enemy collision zeroes the success streak and leaves the current and best
scores exactly as they were. -/
theorem collision_no_modes_frame (s : GameState) (hs : Reachable s)
    (hmodes : s.gp.pointsTrackingModesOn = false) :
    s.gp.playerCollidedWithEnemy.consecutiveSuccesses = 0 ∧
    s.gp.playerCollidedWithEnemy.currentGamePoints = s.gp.currentGamePoints ∧
    s.gp.playerCollidedWithEnemy.bestGamePoints = s.gp.bestGamePoints := by
  obtain ⟨h1, h2, _, _⟩ := inv_reachable s hs
  obtain ⟨hcol, hcob⟩ := modes_off_split s.gp hmodes
  have hcur : s.gp.currentGamePoints = 0 := h1 hcol hcob
  refine ⟨rfl, ?_, ?_⟩
  · show (0 : ℤ) = s.gp.currentGamePoints
    exact hcur.symm
  · unfold GameProperties.playerCollidedWithEnemy
    rw [reset_bestGamePoints, hcur]
    exact max_eq_left h2

/-- C8 (witness): the collision theorem applied at the initial state. -/
theorem collision_no_modes_frame_witness :
    GameState.init.gp.playerCollidedWithEnemy.consecutiveSuccesses = 0 ∧
    GameState.init.gp.playerCollidedWithEnemy.currentGamePoints =
      GameState.init.gp.currentGamePoints :=
  ⟨(collision_no_modes_frame GameState.init ⟨[], rfl⟩ rfl).1,
   (collision_no_modes_frame GameState.init ⟨[], rfl⟩ rfl).2.1⟩

/-- C9 (counterexample): a popup's fade counter never reaches zero when
every tick has dt = 1/2 (each tick multiplies the counter by 1/2, which
keeps it strictly positive), so the claim that the counter reaches zero
after finitely many ticks for any sequence of positive deltas is false. -/
theorem popup_counter_never_zero_cex :
    ¬ ∃ n : ℕ, (fadeIterHalf n).counter ≤ 0 := by
  have hpos : ∀ n : ℕ, 0 < (fadeIterHalf n).counter := by
    intro n
    induction n with
    | zero =>
        show (0 : ℚ) < 100
        norm_num
    | succ k ih =>
        have hstep : fadeIterHalf (k + 1) = (fadeIterHalf k).update (1 / 2) := by
          unfold fadeIterHalf
          rw [Function.iterate_succ_apply']
        rw [hstep]
        show 0 < (fadeIterHalf k).counter - (fadeIterHalf k).counter * (1 / 2)
        linarith
  rintro ⟨n, hn⟩
  exact absurd hn (not_le.mpr (hpos n))

/-- C9 (amended): the fade counter of a live popup strictly decreases on
every tick but stays positive as long as dt < 1; a tick with dt >= 1 makes
it nonpositive, and the scoring engine's update purges popups whose counter
has become nonpositive (strictly shrinking the popup list). -/
theorem popup_fade_spec (sp : ShowPoints) (dt : ℚ) (gp : GameProperties)
    (hc : 0 < sp.counter) :
    (0 < dt → dt < 1 →
      0 < (sp.update dt).counter ∧ (sp.update dt).counter < sp.counter) ∧
    (1 ≤ dt → (sp.update dt).counter ≤ 0) ∧
    ((∃ q ∈ gp.showPoints, q.counter ≤ 0) →
      (gp.update dt).showPoints.length < gp.showPoints.length) := by
  refine ⟨?_, ?_, ?_⟩
  · intro hd0 hd1
    constructor
    · show 0 < sp.counter - sp.counter * dt
      nlinarith [mul_pos hc (sub_pos.mpr hd1)]
    · show sp.counter - sp.counter * dt < sp.counter
      nlinarith [mul_pos hc hd0]
  · intro hd
    show sp.counter - sp.counter * dt ≤ 0
    nlinarith [mul_le_mul_of_nonneg_left hd hc.le]
  · rintro ⟨q, hq, hq0⟩
    show ((gp.showPoints.filter fun spx => decide (0 < spx.counter)).map
        (fun spx => spx.update dt)).length < gp.showPoints.length
    rw [List.length_map]
    exact length_filter_lt_of_mem_not gp.showPoints _ q hq
      (decide_eq_false (not_lt.mpr hq0))

/-- C9 (witness): one tick with dt = 1/2 strictly shrinks a fresh popup's
counter, and the engine update purges a fully faded popup. -/
theorem popup_fade_spec_witness :
    ((ShowPoints.new 0 0 10).update (1 / 2)).counter <
      (ShowPoints.new 0 0 10).counter ∧
    (gpDeadPopup.update (1 / 2)).showPoints.length <
      gpDeadPopup.showPoints.length :=
  ⟨((popup_fade_spec (ShowPoints.new 0 0 10) (1 / 2) gpDeadPopup
      (by norm_num [ShowPoints.new])).1 (by norm_num) (by norm_num)).2,
   (popup_fade_spec (ShowPoints.new 0 0 10) (1 / 2) gpDeadPopup
      (by norm_num [ShowPoints.new])).2.2
     ⟨⟨0, 0, 5, 0⟩, by simp [gpDeadPopup], le_refl 0⟩⟩

/-- C10: in every reachable state with both point-tracking modes off the
current score is exactly 0: toggles reset it to 0 and every point-awarding
operation is guarded by a point-tracking mode (the collectible pickup by
the fact that no collectible exists while the mode is off). -/
theorem no_modes_current_zero (s : GameState) (hs : Reachable s)
    (hmodes : s.gp.pointsTrackingModesOn = false) :
    s.gp.currentGamePoints = 0 := by
  obtain ⟨h1, _, _, _⟩ := inv_reachable s hs
  obtain ⟨hcol, hcob⟩ := modes_off_split s.gp hmodes
  exact h1 hcol hcob

/-- C10 (witness): the invariant applied at the initial state. -/
theorem no_modes_current_zero_witness :
    GameState.init.gp.currentGamePoints = 0 :=
  no_modes_current_zero GameState.init ⟨[], rfl⟩ rfl

end Ndp3
